import Mathlib

/-!
# Authentication controller of the ecoride server

A shallow embedding of `src/controllers/auth.js`.  Every handler becomes a
pure function from the identity store and the request to an outcome: the
response sent (or the error thrown) together with the store afterwards.

The handlers are translated line by line from the controller.  The `User`
model, the password hashing hook, the token methods and `jwt.verify` live
outside the controller; they appear here either as fields of `Env` or as
small definitions whose doc comment says which contract of the specification
they follow.
-/

namespace Ecoride

/-! ## Values, errors, documents -/

/-- A field of `req.body`, or of a stored document, as JavaScript sees it:
missing, `null`, or a string. -/
inductive Val where
  | undefined
  | null
  | str (s : String)
deriving DecidableEq, Repr

/-- JavaScript truthiness of a field: `undefined`, `null` and the empty
string are falsy, every other string is truthy. -/
def Val.truthy : Val → Bool
  | .str s => decide (s ≠ "")
  | _ => false

/-- The errors a handler can throw.  The first two are the classes imported
from `../errors/index.js`; the others are raised by the libraries the
refresh flow calls into. -/
inductive AppError where
  | BadRequestError (message : String)
  | UnauthenticatedError (message : String)
  | JsonWebTokenError (message : String)
  | TokenExpiredError (message : String)
  | CastError (message : String)
deriving DecidableEq, Repr

/-- A document of the user collection. -/
structure User where
  id : Nat
  email : Val := .undefined
  password : Val := .undefined
  role : Val := .undefined
  firstName : Val := .undefined
  middleName : Val := .undefined
  lastName : Val := .undefined
  phone : Val := .undefined
  schoolId : Val := .undefined
  licenseId : Val := .undefined
  sex : Val := .undefined
deriving DecidableEq, Repr

/-- The user collection, in insertion order. -/
abbrev Store := List User

/-- The fields the handlers destructure from `req.body`, and an `id` field
that a body may carry and that no handler reads. -/
structure Body where
  email : Val := .undefined
  password : Val := .undefined
  role : Val := .undefined
  firstName : Val := .undefined
  middleName : Val := .undefined
  lastName : Val := .undefined
  phone : Val := .undefined
  schoolId : Val := .undefined
  licenseId : Val := .undefined
  sex : Val := .undefined
  refresh_token : Val := .undefined
  id : Val := .undefined
deriving DecidableEq, Repr

/-- What `res.status(..).json(..)` sends. -/
structure Response where
  status : Nat
  message : Option String := none
  user : Option User := none
  access_token : Option String := none
  refresh_token : Option String := none
deriving DecidableEq, Repr

/-- The result of running a handler: the response or the thrown error, and
the store afterwards. -/
structure Outcome where
  result : Except AppError Response
  store : Store

deriving instance DecidableEq for Except

/-- The argument handed to `User.findById` by the refresh flow: the `id` of a
decoded payload is an object id, is missing, or is something that cannot be
cast to an object id. -/
inductive IdArg where
  | objectId (n : Nat)
  | missing
  | malformed (raw : String)
deriving DecidableEq, Repr

/-- The collaborators of the controller that are configured outside it: the
one-way hash and its verifier, the two token issuers, and `jwt.verify`
against the refresh secret. -/
structure Env where
  hash : String → String
  verify : String → String → Bool
  createAccessToken : User → String
  createRefreshToken : User → String
  jwtVerify : String → Except AppError IdArg

def StatusCodes.OK : Nat := 200

def StatusCodes.CREATED : Nat := 201

/-! ## The identity store adapter -/

/-- Modelled from the spec: the `User` model (`models/User.js`) is not part of
the sources; section 4.1 gives the store exact-match lookups that return the
matching identity or nothing.  `findOne` returns the first match in insertion
order. -/
def findOne (store : Store) (q : User → Bool) : Option User :=
  store.find? q

/-- Modelled from the spec: `findById(id) -> Identity?` of section 4.1. -/
def findById (store : Store) (id : Nat) : Option User :=
  findOne store (fun u => u.id == id)

/-- Modelled from the spec: `findById` on the `id` of a decoded token payload;
a value that is no object id raises a cast error, a missing value matches
nothing. -/
def findByIdArg (store : Store) : IdArg → Except AppError (Option User)
  | .objectId n => .ok (findById store n)
  | .missing => .ok none
  | .malformed raw => .error (.CastError raw)

/-- Modelled from the spec: identifiers are assigned at creation, unique and
never reused (section 3); with no delete operation, one more than the largest
identifier in the store is such an identifier. -/
def freshId (store : Store) : Nat :=
  (store.map (fun u => u.id)).foldr max 0 + 1

/-- Modelled from the spec: section 4.2, `hash(secret) -> digest`, applied to
the password of a new identity when it is persisted. -/
def hashPassword (env : Env) : Val → Val
  | .str p => .str (env.hash p)
  | v => v

/-- Modelled from the spec: `insert(Identity) -> Identity` of section 4.1,
with the password hashed at creation (section 4.5).  The store gives no
uniqueness guarantee of its own on emails (sections 3 and 5). -/
def insert (env : Env) (store : Store) (doc : User) : User × Store :=
  let saved := { doc with password := hashPassword env doc.password }
  (saved, store ++ [saved])

/-- Replace the first document that has the identifier of `doc`. -/
def replaceById (doc : User) : Store → Store
  | [] => []
  | u :: rest => if u.id == doc.id then doc :: rest else u :: replaceById doc rest

/-- Modelled from the spec: `update(Identity) -> Identity` of section 4.1: the
document with this identifier is overwritten; the hash is only taken at
creation (section 4.2). -/
def update (store : Store) (doc : User) : Store :=
  replaceById doc store

/-- Modelled from the spec: section 4.2, `verify(secret, digest) -> bool`, as
`user.comparePassword(candidate)`. -/
def comparePassword (env : Env) (user : User) (candidate : Val) : Bool :=
  match candidate, user.password with
  | .str c, .str d => env.verify c d
  | _, _ => false

/-- The projection `.select('-password')`. -/
def withoutPassword (user : User) : User :=
  { user with password := .undefined }

/-! ## The handlers of `controllers/auth.js` -/

/-- The test `!role || !["customer", "rider"].includes(role)`, negated. -/
def validRole (role : Val) : Bool :=
  role.truthy && (role == .str "customer" || role == .str "rider")

def thrown (e : AppError) (store : Store) : Outcome :=
  { result := .error e, store := store }

def testAuth (store : Store) : Outcome :=
  { result := .ok { status := StatusCodes.OK, message := some "Auth endpoint is working" },
    store := store }

/-- Login with email and password. -/
def login (env : Env) (store : Store) (body : Body) : Outcome :=
  if !body.email.truthy || !body.password.truthy then
    thrown (.BadRequestError "Please provide email and password") store
  else if !validRole body.role then
    thrown (.BadRequestError "Valid role is required (customer or rider)") store
  else
    match findOne store (fun u => u.email == body.email && u.role == body.role) with
    | none => thrown (.UnauthenticatedError "Invalid credentials") store
    | some user =>
      if !comparePassword env user body.password then
        thrown (.UnauthenticatedError "Invalid credentials") store
      else
        { result := .ok
            { status := StatusCodes.OK
              message := some "User logged in successfully"
              user := some user
              access_token := some (env.createAccessToken user)
              refresh_token := some (env.createRefreshToken user) },
          store := store }

/-- Register a new user. -/
def register (env : Env) (store : Store) (body : Body) : Outcome :=
  if !body.email.truthy || !body.password.truthy then
    thrown (.BadRequestError "Please provide email and password") store
  else if !validRole body.role then
    thrown (.BadRequestError "Valid role is required (customer or rider)") store
  else
    match findOne store (fun u => u.email == body.email) with
    | some _ => thrown (.BadRequestError "Email already in use") store
    | none =>
      let saved := insert env store
        { id := freshId store
          email := body.email
          password := body.password
          role := body.role
          firstName := body.firstName
          middleName := body.middleName
          lastName := body.lastName
          phone := body.phone
          schoolId := body.schoolId
          licenseId := body.licenseId
          sex := body.sex }
      { result := .ok
          { status := StatusCodes.CREATED
            message := some "User created successfully"
            user := some saved.1
            access_token := some (env.createAccessToken saved.1)
            refresh_token := some (env.createRefreshToken saved.1) },
        store := saved.2 }

/-- The email given to an identity created by the legacy flow. -/
def tempEmail : Val → Val
  | .str p => .str (p ++ "@temp.ecoride.com")
  | .null => .str "null@temp.ecoride.com"
  | .undefined => .str "undefined@temp.ecoride.com"

/-- Legacy phone-based authentication.  `randomPassword` is the string that
the two `Math.random()` draws produce. -/
def auth (env : Env) (store : Store) (randomPassword : String) (body : Body) : Outcome :=
  if !body.phone.truthy then
    thrown (.BadRequestError "Phone number is required") store
  else if !validRole body.role then
    thrown (.BadRequestError "Valid role is required (customer or rider)") store
  else
    match findOne store (fun u => u.phone == body.phone) with
    | some user =>
      if user.role != body.role then
        thrown (.BadRequestError "Phone number and role do not match") store
      else
        { result := .ok
            { status := StatusCodes.OK
              message := some "User logged in successfully"
              user := some user
              access_token := some (env.createAccessToken user)
              refresh_token := some (env.createRefreshToken user) },
          store := store }
    | none =>
      let saved := insert env store
        { id := freshId store
          phone := body.phone
          role := body.role
          email := tempEmail body.phone
          password := .str randomPassword }
      { result := .ok
          { status := StatusCodes.CREATED
            message := some "User created successfully"
            user := some saved.1
            access_token := some (env.createAccessToken saved.1)
            refresh_token := some (env.createRefreshToken saved.1) },
        store := saved.2 }

/-- The body of the `try` block of `refreshToken`. -/
def refreshTokenTry (env : Env) (store : Store) (token : String) : Except AppError Response :=
  match env.jwtVerify token with
  | .error e => .error e
  | .ok idArg =>
    match findByIdArg store idArg with
    | .error e => .error e
    | .ok none => .error (.UnauthenticatedError "Invalid refresh token")
    | .ok (some user) =>
      .ok { status := StatusCodes.OK
            access_token := some (env.createAccessToken user)
            refresh_token := some (env.createRefreshToken user) }

/-- Refresh: the `catch` clause replaces whatever was thrown inside the `try`
block. -/
def refreshToken (env : Env) (store : Store) (body : Body) : Outcome :=
  match body.refresh_token with
  | .str token =>
    if token = "" then
      thrown (.BadRequestError "Refresh token is required") store
    else
      match refreshTokenTry env store token with
      | .error _ => thrown (.UnauthenticatedError "Invalid refresh token") store
      | .ok response => { result := .ok response, store := store }
  | _ => thrown (.BadRequestError "Refresh token is required") store

/-- Get user profile information; `userId` is `req.user.id`. -/
def getUserProfile (store : Store) (userId : Nat) : Outcome :=
  match findById store userId with
  | none => thrown (.UnauthenticatedError "User not found") store
  | some user =>
    { result := .ok { status := StatusCodes.OK, user := some (withoutPassword user) },
      store := store }

/-- The assignments `if (firstName) user.firstName = firstName; ...` that
precede the email check. -/
def applyProfileFields (user : User) (body : Body) : User :=
  let user := if body.firstName.truthy then { user with firstName := body.firstName } else user
  let user := if body.middleName != .undefined then { user with middleName := body.middleName } else user
  let user := if body.lastName.truthy then { user with lastName := body.lastName } else user
  let user := if body.phone.truthy then { user with phone := body.phone } else user
  let user := if body.schoolId != .undefined then { user with schoolId := body.schoolId } else user
  let user := if body.licenseId != .undefined then { user with licenseId := body.licenseId } else user
  let user := if body.sex.truthy then { user with sex := body.sex } else user
  user

/-- The tail of `updateUserProfile`: save, read back without the password,
respond. -/
def saveAndRespond (store : Store) (userId : Nat) (user : User) : Outcome :=
  let store := update store user
  { result := .ok
      { status := StatusCodes.OK
        message := some "Profile updated successfully"
        user := (findById store userId).map withoutPassword },
    store := store }

/-- Update user profile information; `userId` is `req.user.id`. -/
def updateUserProfile (store : Store) (userId : Nat) (body : Body) : Outcome :=
  match findById store userId with
  | none => thrown (.UnauthenticatedError "User not found") store
  | some user =>
    let user := applyProfileFields user body
    if body.email.truthy then
      match findOne store (fun u => u.email == body.email && u.id != userId) with
      | some _ => thrown (.BadRequestError "Email already in use") store
      | none => saveAndRespond store userId { user with email := body.email }
    else
      saveAndRespond store userId user

/-! ## Derived documents, predicates and the step function -/

/-- The document `new User({...})` built by `register`, after `save`. -/
def registered (env : Env) (store : Store) (body : Body) : User :=
  { id := freshId store
    email := body.email
    password := hashPassword env body.password
    role := body.role
    firstName := body.firstName
    middleName := body.middleName
    lastName := body.lastName
    phone := body.phone
    schoolId := body.schoolId
    licenseId := body.licenseId
    sex := body.sex }

/-- The document `new User({...})` built by the auto-register branch of
`auth`, after `save`. -/
def autoRegistered (env : Env) (store : Store) (randomPassword : String) (body : Body) : User :=
  { id := freshId store
    phone := body.phone
    role := body.role
    email := tempEmail body.phone
    password := .str (env.hash randomPassword) }

/-- The document that `updateUserProfile` hands to `save` when it gets that
far: the profile assignments, then `user.email = email` for a truthy email. -/
def edited (user : User) (body : Body) : User :=
  if body.email.truthy then { applyProfileFields user body with email := body.email }
  else applyProfileFields user body

/-- The query `{ email, _id: { $ne: req.user.id } }` finds a document. -/
def emailTaken (store : Store) (userId : Nat) (body : Body) : Bool :=
  (findOne store (fun u => u.email == body.email && u.id != userId)).isSome

/-- A field that changes only when the request supplies it. -/
def OnlyIfSupplied (supplied old new : Val) : Prop :=
  new = old ∨ (supplied ≠ .undefined ∧ new = supplied)

/-- A nullable field: untouched when absent from the request, replaced by the
supplied value otherwise. -/
def NullableUpdate (supplied old new : Val) : Prop :=
  (supplied = .undefined → new = old) ∧ (supplied ≠ .undefined → new = supplied)

/-- The relation that a profile update keeps between a stored document and
the document at the same place afterwards. -/
def Preserved (userId : Nat) (before after : User) : Prop :=
  after.id = before.id ∧ after.role = before.role ∧ after.password = before.password ∧
    (before.id ≠ userId → after = before)

/-- Two documents carry the same email string. -/
def sameEmail (a b : User) : Bool :=
  match a.email, b.email with
  | .str x, .str y => x == y
  | _, _ => false

/-- No two identities of the store share an email. -/
def EmailsUnique (store : Store) : Prop :=
  store.Pairwise (fun a b => sameEmail a b = false)

instance (store : Store) : Decidable (EmailsUnique store) := by
  unfold EmailsUnique
  infer_instance

/-- One request to the engine. -/
inductive Request where
  | login (body : Body)
  | register (body : Body)
  | auth (randomPassword : String) (body : Body)
  | refreshToken (body : Body)
  | getUserProfile (userId : Nat)
  | updateUserProfile (userId : Nat) (body : Body)

/-- The single-threaded step of the engine: run the handler of the request on
the current store. -/
def step (env : Env) (store : Store) : Request → Outcome
  | .login body => login env store body
  | .register body => register env store body
  | .auth rnd body => auth env store rnd body
  | .refreshToken body => refreshToken env store body
  | .getUserProfile userId => getUserProfile store userId
  | .updateUserProfile userId body => updateUserProfile store userId body

/-! ## Sample collaborators and stores used by the concrete checks -/

def sampleEnv : Env where
  hash := fun p => "#" ++ p
  verify := fun c d => d == "#" ++ c
  createAccessToken := fun u => "access-" ++ toString u.id
  createRefreshToken := fun u => "refresh-" ++ toString u.id
  jwtVerify := fun t =>
    if t = "refresh-1" then .ok (.objectId 1)
    else if t = "refresh-9" then .ok (.objectId 9)
    else if t = "expired" then .error (.TokenExpiredError "jwt expired")
    else .error (.JsonWebTokenError "jwt malformed")

def alice : User :=
  { id := 1, email := .str "a@x.com", password := .str "#secret1", role := .str "customer",
    firstName := .str "A", middleName := .str "M", lastName := .str "B", phone := .str "555" }

def bob : User :=
  { id := 2, email := .str "b@x.com", password := .str "#hunter2", role := .str "rider",
    firstName := .str "Bob", phone := .str "777" }

def sampleStore : Store := [alice, bob]

/-! ## Lookup lemmas -/

theorem findOne_eq_none_iff (store : Store) (q : User → Bool) :
    findOne store q = none ↔ ∀ u ∈ store, q u = false := by
  simp [findOne, List.find?_eq_none]

theorem findOne_some_mem {store : Store} {q : User → Bool} {u : User}
    (h : findOne store q = some u) : u ∈ store ∧ q u = true := by
  unfold findOne at h
  exact ⟨List.mem_of_find?_eq_some h, List.find?_some h⟩

theorem findOne_isSome_iff (store : Store) (q : User → Bool) :
    (∃ u, findOne store q = some u) ↔ ∃ u ∈ store, q u = true := by
  constructor
  · rintro ⟨u, h⟩
    exact ⟨u, findOne_some_mem h⟩
  · rintro ⟨u, hu, hq⟩
    cases h : findOne store q with
    | some v => exact ⟨v, rfl⟩
    | none =>
      rw [findOne_eq_none_iff] at h
      rw [h u hu] at hq
      cases hq

theorem findOne_append_singleton (store : Store) (q : User → Bool) (u : User)
    (hnone : ∀ v ∈ store, q v = false) (hq : q u = true) :
    findOne (store ++ [u]) q = some u := by
  unfold findOne
  rw [List.find?_append, List.find?_eq_none.mpr (by simpa using hnone)]
  simp [List.find?, hq]

/-! ## Password login -/

/-- C1: a login request with email and password present and a valid role
fails with `UnauthenticatedError "Invalid credentials"` both when no identity
matches (email, role) (first run) and when one matches but the password does
not verify (second run); the two results are the same value, an error that
carries no token, and the store is left as it was. -/
theorem login_failure_uniform (env : Env) (store₁ store₂ : Store) (body₁ body₂ : Body)
    (he₁ : body₁.email.truthy = true) (hp₁ : body₁.password.truthy = true)
    (hr₁ : body₁.role = .str "customer" ∨ body₁.role = .str "rider")
    (he₂ : body₂.email.truthy = true) (hp₂ : body₂.password.truthy = true)
    (hr₂ : body₂.role = .str "customer" ∨ body₂.role = .str "rider")
    (hnone : findOne store₁ (fun u => u.email == body₁.email && u.role == body₁.role) = none)
    (hwrong : ∃ u, findOne store₂ (fun u => u.email == body₂.email && u.role == body₂.role)
        = some u ∧ comparePassword env u body₂.password = false) :
    (login env store₁ body₁).result = .error (.UnauthenticatedError "Invalid credentials") ∧
    (login env store₂ body₂).result = .error (.UnauthenticatedError "Invalid credentials") ∧
    (login env store₁ body₁).result = (login env store₂ body₂).result ∧
    (login env store₁ body₁).store = store₁ ∧
    (login env store₂ body₂).store = store₂ := by
  have hv₁ : validRole body₁.role = true := by
    rcases hr₁ with h | h <;> rw [h] <;> decide
  have hv₂ : validRole body₂.role = true := by
    rcases hr₂ with h | h <;> rw [h] <;> decide
  obtain ⟨u, hu, hcmp⟩ := hwrong
  have h₁ : login env store₁ body₁ =
      thrown (.UnauthenticatedError "Invalid credentials") store₁ := by
    simp [login, he₁, hp₁, hv₁, hnone]
  have h₂ : login env store₂ body₂ =
      thrown (.UnauthenticatedError "Invalid credentials") store₂ := by
    simp [login, he₂, hp₂, hv₂, hu, hcmp]
  rw [h₁, h₂]
  simp [thrown]

theorem login_failure_uniform_witness :
    (login sampleEnv sampleStore
        { email := .str "nobody@x.com", password := .str "secret1", role := .str "customer" }).result
      = .error (.UnauthenticatedError "Invalid credentials") ∧
    (login sampleEnv sampleStore
        { email := .str "a@x.com", password := .str "wrong", role := .str "customer" }).result
      = .error (.UnauthenticatedError "Invalid credentials") :=
  have h := login_failure_uniform sampleEnv sampleStore sampleStore
    { email := .str "nobody@x.com", password := .str "secret1", role := .str "customer" }
    { email := .str "a@x.com", password := .str "wrong", role := .str "customer" }
    (by decide) (by decide) (Or.inl rfl) (by decide) (by decide) (Or.inl rfl)
    (by decide) ⟨alice, by decide, by decide⟩
  ⟨h.1, h.2.1⟩

/-! ## Registration -/

theorem register_of_absent (env : Env) (store : Store) (body : Body)
    (he : body.email.truthy = true) (hp : body.password.truthy = true)
    (hr : validRole body.role = true)
    (hnone : findOne store (fun u => u.email == body.email) = none) :
    register env store body =
      { result := .ok
          { status := StatusCodes.CREATED
            message := some "User created successfully"
            user := some (registered env store body)
            access_token := some (env.createAccessToken (registered env store body))
            refresh_token := some (env.createRefreshToken (registered env store body)) },
        store := store ++ [registered env store body] } := by
  simp [register, he, hp, hr, hnone, insert, registered]

theorem register_of_present (env : Env) (store : Store) (body : Body) (v : User)
    (he : body.email.truthy = true) (hp : body.password.truthy = true)
    (hr : validRole body.role = true)
    (hsome : findOne store (fun u => u.email == body.email) = some v) :
    register env store body = thrown (.BadRequestError "Email already in use") store := by
  simp [register, he, hp, hr, hsome]

theorem validRole_of_enum {role : Val}
    (h : role = .str "customer" ∨ role = .str "rider") : validRole role = true := by
  rcases h with h | h <;> rw [h] <;> decide

/-- C2: a register request with email and password present and a valid role
fails with `BadRequestError "Email already in use"` exactly when the store
holds an identity with that email, of whatever role; on that failure the store
is unchanged; and a second valid register request for the same email, run on
the store the first one leaves, fails with that error whatever role it names. -/
theorem register_duplicate_email_iff (env : Env) (store : Store) (body body₂ : Body)
    (he : body.email.truthy = true) (hp : body.password.truthy = true)
    (hr : body.role = .str "customer" ∨ body.role = .str "rider")
    (he₂ : body₂.email = body.email) (hp₂ : body₂.password.truthy = true)
    (hr₂ : body₂.role = .str "customer" ∨ body₂.role = .str "rider") :
    ((register env store body).result = .error (.BadRequestError "Email already in use")
      ↔ ∃ u ∈ store, u.email = body.email) ∧
    ((register env store body).result = .error (.BadRequestError "Email already in use")
      → (register env store body).store = store) ∧
    (register env (register env store body).store body₂).result
      = .error (.BadRequestError "Email already in use") := by
  have hv := validRole_of_enum hr
  have hv₂ := validRole_of_enum hr₂
  have he₂t : body₂.email.truthy = true := by rw [he₂]; exact he
  cases hfind : findOne store (fun u => u.email == body.email) with
  | none =>
    have hall := (findOne_eq_none_iff store _).mp hfind
    rw [register_of_absent env store body he hp hv hfind]
    refine ⟨⟨fun h => (by cases h), ?_⟩, fun h => (by cases h), ?_⟩
    · rintro ⟨u, hu, hue⟩
      have := hall u hu
      simp [hue] at this
    · have hq : findOne (store ++ [registered env store body])
          (fun u => u.email == body₂.email) = some (registered env store body) := by
        apply findOne_append_singleton
        · intro v hv
          rw [he₂]
          exact hall v hv
        · simp [registered, he₂]
      rw [register_of_present env _ body₂ _ he₂t hp₂ hv₂ hq]
      rfl
  | some v =>
    have hmem := findOne_some_mem hfind
    rw [register_of_present env store body v he hp hv hfind]
    refine ⟨⟨fun _ => ⟨v, hmem.1, by simpa using hmem.2⟩, fun _ => rfl⟩, fun _ => rfl, ?_⟩
    have hq : findOne store (fun u => u.email == body₂.email) = some v := by
      rw [he₂]; exact hfind
    show (register env store body₂).result = _
    rw [register_of_present env store body₂ v he₂t hp₂ hv₂ hq]
    rfl

theorem register_duplicate_email_iff_witness :
    ((register sampleEnv []
        { email := .str "c@x.com", password := .str "pw", role := .str "customer" }).result
        = .error (.BadRequestError "Email already in use")
      ↔ ∃ u ∈ ([] : Store), u.email = .str "c@x.com") ∧
    (register sampleEnv
        (register sampleEnv []
          { email := .str "c@x.com", password := .str "pw", role := .str "customer" }).store
        { email := .str "c@x.com", password := .str "other", role := .str "rider" }).result
      = .error (.BadRequestError "Email already in use") :=
  have h := register_duplicate_email_iff sampleEnv []
    { email := .str "c@x.com", password := .str "pw", role := .str "customer" }
    { email := .str "c@x.com", password := .str "other", role := .str "rider" }
    (by decide) (by decide) (Or.inl rfl) rfl (by decide) (Or.inr rfl)
  ⟨h.1, h.2.2⟩

/-! ## Registration followed by login -/

/-- C3: after a valid register request on a store that holds no identity with
its email, and with a verifier that accepts a secret against its own hash, a
login with the same email, password and role succeeds: registration answers
with status 201 and the created identity, and the login answers with status
200, that same identity, and the access and refresh tokens issued for it. -/
theorem register_then_login (env : Env) (store : Store) (body body₂ : Body)
    (he : body.email.truthy = true) (hp : body.password.truthy = true)
    (hr : body.role = .str "customer" ∨ body.role = .str "rider")
    (hfree : ∀ u ∈ store, u.email ≠ body.email)
    (hverify : ∀ p, body.password = .str p → env.verify p (env.hash p) = true)
    (he₂ : body₂.email = body.email) (hp₂ : body₂.password = body.password)
    (hr₂ : body₂.role = body.role) :
    ∃ u : User,
      u.email = body.email ∧ u.role = body.role ∧
      (register env store body).result = .ok
        { status := StatusCodes.CREATED
          message := some "User created successfully"
          user := some u
          access_token := some (env.createAccessToken u)
          refresh_token := some (env.createRefreshToken u) } ∧
      (register env store body).store = store ++ [u] ∧
      (login env (register env store body).store body₂).result = .ok
        { status := StatusCodes.OK
          message := some "User logged in successfully"
          user := some u
          access_token := some (env.createAccessToken u)
          refresh_token := some (env.createRefreshToken u) } ∧
      (login env (register env store body).store body₂).store = store ++ [u] := by
  have hv := validRole_of_enum hr
  have hnone : findOne store (fun u => u.email == body.email) = none := by
    rw [findOne_eq_none_iff]
    intro u hu
    simpa using hfree u hu
  refine ⟨registered env store body, rfl, rfl, ?_⟩
  rw [register_of_absent env store body he hp hv hnone]
  refine ⟨rfl, rfl, ?_⟩
  have hq : findOne (store ++ [registered env store body])
      (fun u => u.email == body₂.email && u.role == body₂.role)
        = some (registered env store body) := by
    apply findOne_append_singleton
    · intro v hv
      have := hfree v hv
      simp [he₂, this]
    · simp [registered, he₂, hr₂]
  have hcmp : comparePassword env (registered env store body) body₂.password = true := by
    rw [hp₂]
    cases hpw : body.password with
    | str p => simp [comparePassword, registered, hashPassword, hpw, hverify p hpw]
    | undefined => rw [hpw] at hp; cases hp
    | null => rw [hpw] at hp; cases hp
  rw [he₂, hr₂] at hq
  rw [hp₂] at hcmp
  simp [login, he₂, hp₂, hr₂, he, hp, hv, hq, hcmp]

theorem register_then_login_witness :
    (login sampleEnv
        (register sampleEnv sampleStore
          { email := .str "c@x.com", password := .str "pw", role := .str "rider" }).store
        { email := .str "c@x.com", password := .str "pw", role := .str "rider" }).result
      = .ok
        { status := 200
          message := some "User logged in successfully"
          user := some { id := 3, email := .str "c@x.com", password := .str "#pw",
                         role := .str "rider" }
          access_token := some "access-3"
          refresh_token := some "refresh-3" } := by
  obtain ⟨u, _, _, hreg, _, hlogin, _⟩ := register_then_login sampleEnv sampleStore
    { email := .str "c@x.com", password := .str "pw", role := .str "rider" }
    { email := .str "c@x.com", password := .str "pw", role := .str "rider" }
    (by decide) (by decide) (Or.inr rfl) (by decide)
    (by intro p _; simp [sampleEnv]) rfl rfl rfl
  rw [hlogin]
  have hu : (register sampleEnv sampleStore
      { email := .str "c@x.com", password := .str "pw", role := .str "rider" }).result = .ok
        { status := 201
          message := some "User created successfully"
          user := some { id := 3, email := .str "c@x.com", password := .str "#pw",
                         role := .str "rider" }
          access_token := some "access-3"
          refresh_token := some "refresh-3" } := by decide
  rw [hreg] at hu
  injection hu with hu
  injection hu with _ _ hu _ _
  injection hu with hu
  subst hu
  rfl

/-! ## Legacy phone flow -/

theorem auth_of_absent (env : Env) (store : Store) (rnd : String) (body : Body)
    (hp : body.phone.truthy = true) (hr : validRole body.role = true)
    (hnone : findOne store (fun u => u.phone == body.phone) = none) :
    auth env store rnd body =
      { result := .ok
          { status := StatusCodes.CREATED
            message := some "User created successfully"
            user := some (autoRegistered env store rnd body)
            access_token := some (env.createAccessToken (autoRegistered env store rnd body))
            refresh_token := some (env.createRefreshToken (autoRegistered env store rnd body)) },
        store := store ++ [autoRegistered env store rnd body] } := by
  simp [auth, hp, hr, hnone, insert, autoRegistered, hashPassword]

theorem auth_of_present (env : Env) (store : Store) (rnd : String) (body : Body) (user : User)
    (hp : body.phone.truthy = true) (hr : validRole body.role = true)
    (hsome : findOne store (fun u => u.phone == body.phone) = some user) :
    auth env store rnd body =
      if user.role != body.role then
        thrown (.BadRequestError "Phone number and role do not match") store
      else
        { result := .ok
            { status := StatusCodes.OK
              message := some "User logged in successfully"
              user := some user
              access_token := some (env.createAccessToken user)
              refresh_token := some (env.createRefreshToken user) },
          store := store } := by
  simp [auth, hp, hr, hsome]

/-- C4: on a store with no identity of the request's phone, and for a valid
role, legacy `auth` appends exactly one identity, with that phone and role,
and answers 201 "User created successfully"; a second call with the same
phone and role on the resulting store leaves the store as it is, answers 200
"User logged in successfully", and returns the identity, hence the id, of the
first call. -/
theorem auth_twice_same_identity (env : Env) (store : Store) (rnd₁ rnd₂ : String) (body : Body)
    (hp : body.phone.truthy = true)
    (hr : body.role = .str "customer" ∨ body.role = .str "rider")
    (hfree : ∀ u ∈ store, u.phone ≠ body.phone) :
    ∃ u : User,
      u.phone = body.phone ∧ u.role = body.role ∧
      (auth env store rnd₁ body).store = store ++ [u] ∧
      (auth env store rnd₁ body).result = .ok
        { status := StatusCodes.CREATED
          message := some "User created successfully"
          user := some u
          access_token := some (env.createAccessToken u)
          refresh_token := some (env.createRefreshToken u) } ∧
      (auth env (auth env store rnd₁ body).store rnd₂ body).store = store ++ [u] ∧
      (auth env (auth env store rnd₁ body).store rnd₂ body).result = .ok
        { status := StatusCodes.OK
          message := some "User logged in successfully"
          user := some u
          access_token := some (env.createAccessToken u)
          refresh_token := some (env.createRefreshToken u) } := by
  have hv := validRole_of_enum hr
  have hnone : findOne store (fun u => u.phone == body.phone) = none := by
    rw [findOne_eq_none_iff]
    intro u hu
    simpa using hfree u hu
  refine ⟨autoRegistered env store rnd₁ body, rfl, rfl, ?_⟩
  rw [auth_of_absent env store rnd₁ body hp hv hnone]
  refine ⟨rfl, rfl, ?_⟩
  have hq : findOne (store ++ [autoRegistered env store rnd₁ body])
      (fun u => u.phone == body.phone) = some (autoRegistered env store rnd₁ body) := by
    apply findOne_append_singleton
    · exact (findOne_eq_none_iff store _).mp hnone
    · simp [autoRegistered]
  show (auth env (store ++ [autoRegistered env store rnd₁ body]) rnd₂ body).store = _ ∧
    (auth env (store ++ [autoRegistered env store rnd₁ body]) rnd₂ body).result = _
  rw [auth_of_present env _ rnd₂ body _ hp hv hq]
  simp [autoRegistered]

theorem auth_twice_same_identity_witness :
    ∃ u : User,
      u.phone = .str "999" ∧ u.role = .str "rider" ∧
      (auth sampleEnv sampleStore "r4nd0m" { phone := .str "999", role := .str "rider" }).store
        = sampleStore ++ [u] ∧
      (auth sampleEnv sampleStore "r4nd0m" { phone := .str "999", role := .str "rider" }).result
        = .ok
        { status := 201
          message := some "User created successfully"
          user := some u
          access_token := some (sampleEnv.createAccessToken u)
          refresh_token := some (sampleEnv.createRefreshToken u) } ∧
      (auth sampleEnv
          (auth sampleEnv sampleStore "r4nd0m" { phone := .str "999", role := .str "rider" }).store
          "0th3r" { phone := .str "999", role := .str "rider" }).store = sampleStore ++ [u] ∧
      (auth sampleEnv
          (auth sampleEnv sampleStore "r4nd0m" { phone := .str "999", role := .str "rider" }).store
          "0th3r" { phone := .str "999", role := .str "rider" }).result = .ok
        { status := 200
          message := some "User logged in successfully"
          user := some u
          access_token := some (sampleEnv.createAccessToken u)
          refresh_token := some (sampleEnv.createRefreshToken u) } :=
  auth_twice_same_identity sampleEnv sampleStore "r4nd0m" "0th3r"
    { phone := .str "999", role := .str "rider" } (by decide) (Or.inr rfl) (by decide)

/-- C5: when the identity that the lookup by the request's phone finds has a
role different from the valid role the request names, legacy `auth` throws
`BadRequestError "Phone number and role do not match"`: the result is an
error, so no token is issued, and the store is the one before the call, so no
identity is created. -/
theorem auth_role_mismatch (env : Env) (store : Store) (rnd : String) (body : Body) (user : User)
    (hp : body.phone.truthy = true)
    (hr : body.role = .str "customer" ∨ body.role = .str "rider")
    (hfound : findOne store (fun u => u.phone == body.phone) = some user)
    (hrole : user.role ≠ body.role) :
    (auth env store rnd body).result
      = .error (.BadRequestError "Phone number and role do not match") ∧
    (auth env store rnd body).store = store := by
  have hv := validRole_of_enum hr
  rw [auth_of_present env store rnd body user hp hv hfound]
  simp [hrole, thrown]

theorem auth_role_mismatch_witness :
    (auth sampleEnv sampleStore "r4nd0m" { phone := .str "555", role := .str "rider" }).result
      = .error (.BadRequestError "Phone number and role do not match") ∧
    (auth sampleEnv sampleStore "r4nd0m" { phone := .str "555", role := .str "rider" }).store
      = sampleStore :=
  auth_role_mismatch sampleEnv sampleStore "r4nd0m" { phone := .str "555", role := .str "rider" }
    alice (by decide) (Or.inr rfl) (by decide) (by decide)

/-! ## Refresh -/

/-- C6: for a request with a non-empty `refresh_token`, the refresh flow either
answers 200 with the access and refresh tokens issued for the identity the
token resolves to, or throws `UnauthenticatedError "Invalid refresh token"`;
it throws that same error whatever `jwt.verify` raised (bad signature, expiry,
malformed token or any other error), when the lookup by the decoded id
raises, and when the lookup finds no identity.  The store is not touched. -/
theorem refresh_uniform_failure (env : Env) (store : Store) (body : Body) (token : String)
    (htok : body.refresh_token = .str token) (hne : token ≠ "") :
    ((∃ idArg user,
        env.jwtVerify token = .ok idArg ∧ findByIdArg store idArg = .ok (some user) ∧
        (refreshToken env store body).result = .ok
          { status := StatusCodes.OK
            access_token := some (env.createAccessToken user)
            refresh_token := some (env.createRefreshToken user) }) ∨
      (refreshToken env store body).result
        = .error (.UnauthenticatedError "Invalid refresh token")) ∧
    (∀ e, env.jwtVerify token = .error e →
      (refreshToken env store body).result
        = .error (.UnauthenticatedError "Invalid refresh token")) ∧
    (∀ idArg e, env.jwtVerify token = .ok idArg → findByIdArg store idArg = .error e →
      (refreshToken env store body).result
        = .error (.UnauthenticatedError "Invalid refresh token")) ∧
    (∀ idArg, env.jwtVerify token = .ok idArg → findByIdArg store idArg = .ok none →
      (refreshToken env store body).result
        = .error (.UnauthenticatedError "Invalid refresh token")) ∧
    (refreshToken env store body).store = store := by
  have hrun : refreshToken env store body =
      match refreshTokenTry env store token with
      | .error _ => thrown (.UnauthenticatedError "Invalid refresh token") store
      | .ok response => { result := .ok response, store := store } := by
    simp [refreshToken, htok, hne]
  refine ⟨?_, ?_, ?_, ?_, ?_⟩
  · cases hj : env.jwtVerify token with
    | error e => right; simp [hrun, refreshTokenTry, hj, thrown]
    | ok idArg =>
      cases hf : findByIdArg store idArg with
      | error e => right; simp [hrun, refreshTokenTry, hj, hf, thrown]
      | ok found =>
        cases found with
        | none => right; simp [hrun, refreshTokenTry, hj, hf, thrown]
        | some user =>
          left
          exact ⟨idArg, user, rfl, hf, by simp [hrun, refreshTokenTry, hj, hf]⟩
  · intro e hj
    simp [hrun, refreshTokenTry, hj, thrown]
  · intro idArg e hj hf
    simp [hrun, refreshTokenTry, hj, hf, thrown]
  · intro idArg hj hf
    simp [hrun, refreshTokenTry, hj, hf, thrown]
  · rw [hrun]
    cases refreshTokenTry env store token <;> rfl

theorem refresh_uniform_failure_witness :
    (refreshToken sampleEnv sampleStore { refresh_token := .str "refresh-1" }).result = .ok
        { status := 200, access_token := some "access-1", refresh_token := some "refresh-1" } ∧
    (refreshToken sampleEnv sampleStore { refresh_token := .str "expired" }).result
      = .error (.UnauthenticatedError "Invalid refresh token") ∧
    (refreshToken sampleEnv sampleStore { refresh_token := .str "signed-elsewhere" }).result
      = .error (.UnauthenticatedError "Invalid refresh token") ∧
    (refreshToken sampleEnv sampleStore { refresh_token := .str "refresh-9" }).result
      = .error (.UnauthenticatedError "Invalid refresh token") :=
  ⟨by decide,
   (refresh_uniform_failure sampleEnv sampleStore { refresh_token := .str "expired" }
      "expired" rfl (by decide)).2.1 (.TokenExpiredError "jwt expired") (by decide),
   by decide, by decide⟩

/-! ## Profile update -/

theorem findById_id {store : Store} {id : Nat} {user : User}
    (h : findById store id = some user) : user.id = id := by
  have := (findOne_some_mem h).2
  simpa using this

theorem findById_cons (u : User) (rest : Store) (id : Nat) :
    findById (u :: rest) id = if u.id == id then some u else findById rest id := by
  unfold findById findOne
  rw [List.find?_cons]
  cases u.id == id <;> rfl

theorem findById_replaceById (doc : User) (store : Store) (user : User)
    (hfound : findById store doc.id = some user) :
    findById (replaceById doc store) doc.id = some doc := by
  induction store with
  | nil => simp [findById, findOne] at hfound
  | cons u rest ih =>
    rw [findById_cons] at hfound
    by_cases hid : u.id = doc.id
    · simp [replaceById, findById_cons, hid]
    · simp only [beq_iff_eq, hid, if_false] at hfound
      simp [replaceById, findById_cons, hid, ih hfound]

theorem replaceById_forall₂ (R : User → User → Prop) (hrefl : ∀ u, R u u)
    (doc : User) (store : Store) (user : User)
    (hfound : findById store doc.id = some user) (hR : R user doc) :
    List.Forall₂ R store (replaceById doc store) := by
  induction store with
  | nil => exact List.Forall₂.nil
  | cons u rest ih =>
    rw [findById_cons] at hfound
    by_cases hid : u.id = doc.id
    · simp only [beq_iff_eq, hid, if_true, Option.some.injEq] at hfound
      subst hfound
      simp only [replaceById, beq_iff_eq, hid, if_true]
      exact List.Forall₂.cons hR ((List.forall₂_same).mpr (fun x _ => hrefl x))
    · simp only [beq_iff_eq, hid, if_false] at hfound
      simp only [replaceById, beq_iff_eq, hid, if_false]
      exact List.Forall₂.cons (hrefl u) (ih hfound)

theorem applyProfileFields_id (user : User) (body : Body) :
    (applyProfileFields user body).id = user.id := by
  simp [applyProfileFields, apply_ite User.id]

theorem applyProfileFields_role (user : User) (body : Body) :
    (applyProfileFields user body).role = user.role := by
  simp [applyProfileFields, apply_ite User.role]

theorem applyProfileFields_password (user : User) (body : Body) :
    (applyProfileFields user body).password = user.password := by
  simp [applyProfileFields, apply_ite User.password]

theorem applyProfileFields_email (user : User) (body : Body) :
    (applyProfileFields user body).email = user.email := by
  simp [applyProfileFields, apply_ite User.email]

theorem edited_id (user : User) (body : Body) : (edited user body).id = user.id := by
  unfold edited
  split_ifs
  · exact applyProfileFields_id user body
  · exact applyProfileFields_id user body

theorem edited_role (user : User) (body : Body) : (edited user body).role = user.role := by
  unfold edited
  split_ifs
  · exact applyProfileFields_role user body
  · exact applyProfileFields_role user body

theorem edited_password (user : User) (body : Body) :
    (edited user body).password = user.password := by
  unfold edited
  split_ifs
  · exact applyProfileFields_password user body
  · exact applyProfileFields_password user body

theorem updateUserProfile_cases (store : Store) (userId : Nat) (body : Body) (user : User)
    (hfound : findById store userId = some user) :
    updateUserProfile store userId body =
      if body.email.truthy && emailTaken store userId body then
        thrown (.BadRequestError "Email already in use") store
      else saveAndRespond store userId (edited user body) := by
  unfold updateUserProfile emailTaken edited
  rw [hfound]
  by_cases he : body.email.truthy = true
  · cases hq : findOne store (fun u => u.email == body.email && u.id != userId) <;>
      simp [he, hq]
  · simp [he]

theorem emailTaken_iff (store : Store) (userId : Nat) (body : Body) :
    emailTaken store userId body = true ↔ ∃ v ∈ store, v.id ≠ userId ∧ v.email = body.email := by
  unfold emailTaken
  rw [Option.isSome_iff_exists, findOne_isSome_iff]
  constructor
  · rintro ⟨v, hv, hq⟩
    simp at hq
    exact ⟨v, hv, hq.2, hq.1⟩
  · rintro ⟨v, hv, hid, hem⟩
    exact ⟨v, hv, by simp [hid, hem]⟩

theorem applyProfileFields_firstName (user : User) (body : Body) :
    (applyProfileFields user body).firstName
      = if body.firstName.truthy then body.firstName else user.firstName := by
  by_cases h : body.firstName.truthy = true <;>
    simp [applyProfileFields, apply_ite User.firstName, h]

theorem applyProfileFields_lastName (user : User) (body : Body) :
    (applyProfileFields user body).lastName
      = if body.lastName.truthy then body.lastName else user.lastName := by
  by_cases h : body.lastName.truthy = true <;>
    simp [applyProfileFields, apply_ite User.lastName, h]

theorem applyProfileFields_phone (user : User) (body : Body) :
    (applyProfileFields user body).phone
      = if body.phone.truthy then body.phone else user.phone := by
  by_cases h : body.phone.truthy = true <;>
    simp [applyProfileFields, apply_ite User.phone, h]

theorem applyProfileFields_sex (user : User) (body : Body) :
    (applyProfileFields user body).sex
      = if body.sex.truthy then body.sex else user.sex := by
  by_cases h : body.sex.truthy = true <;>
    simp [applyProfileFields, apply_ite User.sex, h]

theorem applyProfileFields_middleName (user : User) (body : Body) :
    (applyProfileFields user body).middleName
      = if body.middleName = .undefined then user.middleName else body.middleName := by
  by_cases h : body.middleName = .undefined <;>
    simp [applyProfileFields, apply_ite User.middleName, h]

theorem applyProfileFields_schoolId (user : User) (body : Body) :
    (applyProfileFields user body).schoolId
      = if body.schoolId = .undefined then user.schoolId else body.schoolId := by
  by_cases h : body.schoolId = .undefined <;>
    simp [applyProfileFields, apply_ite User.schoolId, h]

theorem applyProfileFields_licenseId (user : User) (body : Body) :
    (applyProfileFields user body).licenseId
      = if body.licenseId = .undefined then user.licenseId else body.licenseId := by
  by_cases h : body.licenseId = .undefined <;>
    simp [applyProfileFields, apply_ite User.licenseId, h]

theorem edited_of_field (proj : User → Val) (user : User) (body : Body)
    (hproj : ∀ (u : User) (e : Val), proj { u with email := e } = proj u) :
    proj (edited user body) = proj (applyProfileFields user body) := by
  unfold edited
  split_ifs
  · exact hproj _ _
  · rfl

theorem edited_email (user : User) (body : Body) :
    (edited user body).email = if body.email.truthy then body.email else user.email := by
  unfold edited
  split_ifs
  · rfl
  · exact applyProfileFields_email user body

theorem truthy_ne_undefined {v : Val} (h : v.truthy = true) : v ≠ .undefined := by
  intro hv
  rw [hv] at h
  cases h

theorem onlyIfSupplied_of_truthy (supplied old new : Val)
    (h : new = if supplied.truthy then supplied else old) : OnlyIfSupplied supplied old new := by
  unfold OnlyIfSupplied
  by_cases ht : supplied.truthy = true
  · right
    exact ⟨truthy_ne_undefined ht, by simp [h, ht]⟩
  · left
    simp [h, ht]

theorem nullableUpdate_of_defined (supplied old new : Val)
    (h : new = if supplied = .undefined then old else supplied) :
    NullableUpdate supplied old new := by
  unfold NullableUpdate
  constructor
  · intro hs
    simp [h, hs]
  · intro hs
    simp [h, hs]

theorem saveAndRespond_of_found (store : Store) (userId : Nat) (doc user : User)
    (hfound : findById store userId = some user) (hid : doc.id = userId) :
    saveAndRespond store userId doc =
      { result := .ok
          { status := StatusCodes.OK
            message := some "Profile updated successfully"
            user := some (withoutPassword doc) },
        store := replaceById doc store } := by
  subst hid
  simp [saveAndRespond, update, findById_replaceById doc store user hfound]

/-- C7: when a profile update of an existing identity succeeds, the stored
identity afterwards differs from the one before in a profile field
(firstName, middleName, lastName, phone, schoolId, licenseId, sex, email) only
if the request supplied that field; and for middleName, schoolId and
licenseId an absent field keeps the stored value while any supplied value,
the empty string included, becomes the stored value. -/
theorem update_partial_semantics (store : Store) (userId : Nat) (body : Body)
    (user : User) (resp : Response)
    (hfound : findById store userId = some user)
    (hok : (updateUserProfile store userId body).result = .ok resp) :
    ∃ user' : User,
      findById (updateUserProfile store userId body).store userId = some user' ∧
      OnlyIfSupplied body.firstName user.firstName user'.firstName ∧
      OnlyIfSupplied body.middleName user.middleName user'.middleName ∧
      OnlyIfSupplied body.lastName user.lastName user'.lastName ∧
      OnlyIfSupplied body.phone user.phone user'.phone ∧
      OnlyIfSupplied body.schoolId user.schoolId user'.schoolId ∧
      OnlyIfSupplied body.licenseId user.licenseId user'.licenseId ∧
      OnlyIfSupplied body.sex user.sex user'.sex ∧
      OnlyIfSupplied body.email user.email user'.email ∧
      NullableUpdate body.middleName user.middleName user'.middleName ∧
      NullableUpdate body.schoolId user.schoolId user'.schoolId ∧
      NullableUpdate body.licenseId user.licenseId user'.licenseId := by
  have hid : (edited user body).id = userId := by
    rw [edited_id, findById_id hfound]
  have hrun := updateUserProfile_cases store userId body user hfound
  by_cases hdup : (body.email.truthy && emailTaken store userId body) = true
  · rw [hrun] at hok
    simp [hdup, thrown] at hok
  · rw [hrun]
    simp only [hdup, if_false]
    rw [saveAndRespond_of_found store userId _ user hfound hid]
    refine ⟨edited user body, ?_, ?_⟩
    · have := findById_replaceById (edited user body) store user (by rw [hid]; exact hfound)
      rw [hid] at this
      exact this
    · have nullable_only : ∀ a b c, NullableUpdate a b c → OnlyIfSupplied a b c := by
        intro a b c h
        by_cases ha : a = .undefined
        · exact Or.inl (h.1 ha)
        · exact Or.inr ⟨ha, h.2 ha⟩
      have hm : NullableUpdate body.middleName user.middleName (edited user body).middleName :=
        nullableUpdate_of_defined _ _ _ (by
          rw [edited_of_field User.middleName user body (fun _ _ => rfl)]
          exact applyProfileFields_middleName user body)
      have hs : NullableUpdate body.schoolId user.schoolId (edited user body).schoolId :=
        nullableUpdate_of_defined _ _ _ (by
          rw [edited_of_field User.schoolId user body (fun _ _ => rfl)]
          exact applyProfileFields_schoolId user body)
      have hl : NullableUpdate body.licenseId user.licenseId (edited user body).licenseId :=
        nullableUpdate_of_defined _ _ _ (by
          rw [edited_of_field User.licenseId user body (fun _ _ => rfl)]
          exact applyProfileFields_licenseId user body)
      refine ⟨?_, nullable_only _ _ _ hm, ?_, ?_, nullable_only _ _ _ hs,
        nullable_only _ _ _ hl, ?_, ?_, hm, hs, hl⟩
      · apply onlyIfSupplied_of_truthy
        rw [edited_of_field User.firstName user body (fun _ _ => rfl)]
        exact applyProfileFields_firstName user body
      · apply onlyIfSupplied_of_truthy
        rw [edited_of_field User.lastName user body (fun _ _ => rfl)]
        exact applyProfileFields_lastName user body
      · apply onlyIfSupplied_of_truthy
        rw [edited_of_field User.phone user body (fun _ _ => rfl)]
        exact applyProfileFields_phone user body
      · apply onlyIfSupplied_of_truthy
        rw [edited_of_field User.sex user body (fun _ _ => rfl)]
        exact applyProfileFields_sex user body
      · apply onlyIfSupplied_of_truthy
        exact edited_email user body

theorem update_partial_semantics_witness :
    ∃ user' : User,
      findById (updateUserProfile sampleStore 1
        { firstName := .str "Al", middleName := .str "" }).store 1 = some user' ∧
      OnlyIfSupplied (.str "Al") alice.firstName user'.firstName ∧
      OnlyIfSupplied (.str "") alice.middleName user'.middleName ∧
      OnlyIfSupplied .undefined alice.lastName user'.lastName ∧
      OnlyIfSupplied .undefined alice.phone user'.phone ∧
      OnlyIfSupplied .undefined alice.schoolId user'.schoolId ∧
      OnlyIfSupplied .undefined alice.licenseId user'.licenseId ∧
      OnlyIfSupplied .undefined alice.sex user'.sex ∧
      OnlyIfSupplied .undefined alice.email user'.email ∧
      NullableUpdate (.str "") alice.middleName user'.middleName ∧
      NullableUpdate .undefined alice.schoolId user'.schoolId ∧
      NullableUpdate .undefined alice.licenseId user'.licenseId :=
  update_partial_semantics sampleStore 1 { firstName := .str "Al", middleName := .str "" } alice
    { status := 200
      message := some "Profile updated successfully"
      user := some { id := 1, email := .str "a@x.com", role := .str "customer",
                     firstName := .str "Al", middleName := .str "", lastName := .str "B",
                     phone := .str "555" } }
    (by decide) (by decide)

/-- C8: for an authenticated id that exists in the store and a request with a
non-empty email, the profile update throws `BadRequestError "Email already in
use"` exactly when an identity with a different id holds that email; when no
identity with a different id holds it, as when the identity re-submits its own
email, the update answers 200; and when the error is thrown the store is the
one before the call, whatever other fields the request supplied. -/
theorem update_duplicate_email_iff (store : Store) (userId : Nat) (body : Body) (user : User)
    (hfound : findById store userId = some user)
    (he : body.email.truthy = true) :
    ((updateUserProfile store userId body).result
        = .error (.BadRequestError "Email already in use")
      ↔ ∃ v ∈ store, v.id ≠ userId ∧ v.email = body.email) ∧
    ((∀ v ∈ store, v.email = body.email → v.id = userId) →
      ∃ user' : User, user'.email = body.email ∧
        findById (updateUserProfile store userId body).store userId = some user' ∧
        (updateUserProfile store userId body).result = .ok
          { status := StatusCodes.OK
            message := some "Profile updated successfully"
            user := some (withoutPassword user') }) ∧
    ((updateUserProfile store userId body).result
        = .error (.BadRequestError "Email already in use")
      → (updateUserProfile store userId body).store = store) := by
  have hid : (edited user body).id = userId := by
    rw [edited_id, findById_id hfound]
  have hrun := updateUserProfile_cases store userId body user hfound
  have hsave := saveAndRespond_of_found store userId _ user hfound hid
  by_cases htaken : emailTaken store userId body = true
  · have hthrow : updateUserProfile store userId body
        = thrown (.BadRequestError "Email already in use") store := by
      rw [hrun]
      simp [he, htaken]
    rw [hthrow]
    refine ⟨⟨fun _ => (emailTaken_iff store userId body).mp htaken, fun _ => rfl⟩, ?_,
      fun _ => rfl⟩
    intro hown
    obtain ⟨v, hv, hne, hem⟩ := (emailTaken_iff store userId body).mp htaken
    exact absurd (hown v hv hem) hne
  · have hsaved : updateUserProfile store userId body
        = saveAndRespond store userId (edited user body) := by
      rw [hrun]
      simp [htaken]
    rw [hsaved, hsave]
    refine ⟨⟨fun h => (by cases h), fun h => ?_⟩, fun _ => ?_, fun h => (by cases h)⟩
    · exact absurd ((emailTaken_iff store userId body).mpr h) htaken
    · refine ⟨edited user body, by simp [edited_email, he], ?_, rfl⟩
      have := findById_replaceById (edited user body) store user (by rw [hid]; exact hfound)
      rw [hid] at this
      exact this

theorem update_duplicate_email_iff_witness :
    ((updateUserProfile sampleStore 1 { email := .str "b@x.com", firstName := .str "Al" }).result
        = .error (.BadRequestError "Email already in use")
      ↔ ∃ v ∈ sampleStore, v.id ≠ 1 ∧ v.email = .str "b@x.com") ∧
    ((updateUserProfile sampleStore 1 { email := .str "b@x.com", firstName := .str "Al" }).result
        = .error (.BadRequestError "Email already in use")
      → (updateUserProfile sampleStore 1
          { email := .str "b@x.com", firstName := .str "Al" }).store = sampleStore) ∧
    (updateUserProfile sampleStore 1 { email := .str "b@x.com", firstName := .str "Al" }).result
        = .error (.BadRequestError "Email already in use") ∧
    (updateUserProfile sampleStore 1 { email := .str "a@x.com" }).result = .ok
      { status := 200
        message := some "Profile updated successfully"
        user := some (withoutPassword alice) } :=
  have h := update_duplicate_email_iff sampleStore 1
    { email := .str "b@x.com", firstName := .str "Al" } alice (by decide) (by decide)
  ⟨h.1, h.2.2, by decide, by decide⟩

/-- C9: whatever the request body carries, `role`, `id` and `password` fields
included, a profile update leaves the store with the same documents in the
same places, each with the id, the role and the password hash it had before,
and each document whose id is not the authenticated id is exactly as before. -/
theorem update_preserves_identity (store : Store) (userId : Nat) (body : Body) :
    List.Forall₂ (Preserved userId) store (updateUserProfile store userId body).store := by
  have hrefl : ∀ u, Preserved userId u u := fun u => ⟨rfl, rfl, rfl, fun _ => rfl⟩
  have hsame : List.Forall₂ (Preserved userId) store store :=
    (List.forall₂_same).mpr (fun x _ => hrefl x)
  cases hfound : findById store userId with
  | none =>
    simp only [updateUserProfile, hfound, thrown]
    exact hsame
  | some user =>
    have hid : (edited user body).id = userId := by
      rw [edited_id, findById_id hfound]
    rw [updateUserProfile_cases store userId body user hfound]
    split_ifs
    · exact hsame
    · rw [saveAndRespond_of_found store userId _ user hfound hid]
      apply replaceById_forall₂ (Preserved userId) hrefl (edited user body) store user
      · rw [hid]; exact hfound
      · refine ⟨edited_id user body, edited_role user body, edited_password user body, ?_⟩
        intro hne
        exact absurd (findById_id hfound) hne

/-! ## Email uniqueness across operations -/

theorem login_store (env : Env) (store : Store) (body : Body) :
    (login env store body).store = store := by
  unfold login
  split_ifs
  · rfl
  · rfl
  · split
    · rfl
    · split_ifs <;> rfl

theorem refreshToken_store (env : Env) (store : Store) (body : Body) :
    (refreshToken env store body).store = store := by
  unfold refreshToken
  split
  · split_ifs
    · rfl
    · split <;> rfl
  · rfl

theorem getUserProfile_store (store : Store) (userId : Nat) :
    (getUserProfile store userId).store = store := by
  unfold getUserProfile
  split <;> rfl

theorem register_store (env : Env) (store : Store) (body : Body) :
    (register env store body).store = store ∨
    (findOne store (fun u => u.email == body.email) = none ∧
      (register env store body).store = store ++ [registered env store body]) := by
  unfold register
  split_ifs
  · exact Or.inl rfl
  · exact Or.inl rfl
  · split
    · exact Or.inl rfl
    · next hnone => exact Or.inr ⟨hnone, rfl⟩

theorem auth_store (env : Env) (store : Store) (rnd : String) (body : Body) :
    (auth env store rnd body).store = store ∨
    (auth env store rnd body).store = store ++ [autoRegistered env store rnd body] := by
  unfold auth
  split_ifs
  · exact Or.inl rfl
  · exact Or.inl rfl
  · split
    · split_ifs <;> exact Or.inl rfl
    · exact Or.inr rfl

theorem updateUserProfile_store (store : Store) (userId : Nat) (body : Body) :
    (updateUserProfile store userId body).store = store ∨
    ∃ user, findById store userId = some user ∧
      (body.email.truthy = true → emailTaken store userId body = false) ∧
      (updateUserProfile store userId body).store = replaceById (edited user body) store := by
  cases hfound : findById store userId with
  | none =>
    left
    simp [updateUserProfile, hfound, thrown]
  | some user =>
    rw [updateUserProfile_cases store userId body user hfound]
    by_cases hdup : (body.email.truthy && emailTaken store userId body) = true
    · left
      simp [hdup, thrown]
    · right
      refine ⟨user, rfl, ?_, ?_⟩
      · intro he
        simpa [he] using hdup
      · simp [hdup, saveAndRespond, update]

theorem sameEmail_eq_true {a b : User} (h : sameEmail a b = true) : a.email = b.email := by
  unfold sameEmail at h
  split at h
  · next x y hx hy =>
    rw [hx, hy]
    simpa using h
  · cases h

theorem sameEmail_false_of_ne {a b : User} (h : a.email ≠ b.email) : sameEmail a b = false := by
  cases hs : sameEmail a b with
  | false => rfl
  | true => exact absurd (sameEmail_eq_true hs) h

theorem sameEmail_comm (a b : User) : sameEmail a b = sameEmail b a := by
  unfold sameEmail
  cases a.email <;> cases b.email <;> simp [eq_comm]

theorem sameEmail_congr_left {a a' : User} (b : User) (h : a.email = a'.email) :
    sameEmail a b = sameEmail a' b := by
  unfold sameEmail
  rw [h]

theorem emailsUnique_append_singleton (store : Store) (u : User)
    (huniq : EmailsUnique store) (hnew : ∀ a ∈ store, a.email ≠ u.email) :
    EmailsUnique (store ++ [u]) := by
  unfold EmailsUnique at huniq ⊢
  rw [List.pairwise_append]
  refine ⟨huniq, List.pairwise_singleton _ _, ?_⟩
  intro a ha b hb
  simp only [List.mem_singleton] at hb
  subst hb
  exact sameEmail_false_of_ne (hnew a ha)

theorem mem_replaceById {doc v : User} {store : Store}
    (h : v ∈ replaceById doc store) : v ∈ store ∨ v = doc := by
  induction store with
  | nil => simp [replaceById] at h
  | cons u rest ih =>
    unfold replaceById at h
    split_ifs at h
    · rcases List.mem_cons.mp h with h | h
      · exact Or.inr h
      · exact Or.inl (List.mem_cons_of_mem _ h)
    · rcases List.mem_cons.mp h with h | h
      · exact Or.inl (h ▸ List.mem_cons_self _ _)
      · rcases ih h with h | h
        · exact Or.inl (List.mem_cons_of_mem _ h)
        · exact Or.inr h

theorem replaceById_map_id (doc : User) (store : Store) :
    (replaceById doc store).map (fun u => u.id) = store.map (fun u => u.id) := by
  induction store with
  | nil => rfl
  | cons u rest ih =>
    unfold replaceById
    by_cases hid : u.id = doc.id
    · simp [hid]
    · simp [hid, ih]

theorem emailsUnique_replaceById (doc : User) (store : Store)
    (hids : (store.map (fun u => u.id)).Nodup) (huniq : EmailsUnique store)
    (hother : ∀ v ∈ store, v.id ≠ doc.id → sameEmail v doc = false) :
    EmailsUnique (replaceById doc store) := by
  induction store with
  | nil => exact List.Pairwise.nil
  | cons u rest ih =>
    unfold EmailsUnique at huniq
    rw [List.pairwise_cons] at huniq
    rw [List.map_cons, List.nodup_cons] at hids
    have hrest : EmailsUnique (replaceById doc rest) :=
      ih hids.2 huniq.2 (fun v hv => hother v (List.mem_cons_of_mem _ hv))
    unfold replaceById
    by_cases hid : u.id = doc.id
    · simp only [beq_iff_eq, hid, if_true]
      unfold EmailsUnique
      rw [List.pairwise_cons]
      refine ⟨?_, huniq.2⟩
      intro v hv
      rw [sameEmail_comm]
      apply hother v (List.mem_cons_of_mem _ hv)
      intro hvid
      apply hids.1
      rw [hid, ← hvid]
      exact List.mem_map_of_mem (fun u => u.id) hv
    · simp only [beq_iff_eq, hid, if_false]
      unfold EmailsUnique
      rw [List.pairwise_cons]
      refine ⟨?_, hrest⟩
      intro v hv
      rcases mem_replaceById hv with hv | hv
      · exact huniq.1 v hv
      · rw [hv]
        exact hother u (List.mem_cons_self _ _) hid

theorem id_lt_freshId (store : Store) (u : User) (hu : u ∈ store) : u.id < freshId store := by
  unfold freshId
  induction store with
  | nil => cases hu
  | cons v rest ih =>
    simp only [List.map_cons, List.foldr_cons]
    rcases List.mem_cons.mp hu with h | h
    · subst h
      omega
    · have := ih h
      omega

/-- Every step keeps the identifiers of the store pairwise different. -/
theorem step_ids_nodup (env : Env) (store : Store) (req : Request)
    (hids : (store.map (fun u => u.id)).Nodup) :
    ((step env store req).store.map (fun u => u.id)).Nodup := by
  have happend : ∀ u : User, u.id = freshId store →
      ((store ++ [u]).map (fun u => u.id)).Nodup := by
    intro u hu
    rw [List.map_append, List.nodup_append]
    refine ⟨hids, List.nodup_singleton _, ?_⟩
    intro a ha hb
    simp only [List.map_cons, List.map_nil, List.mem_singleton] at hb
    obtain ⟨v, hv, hva⟩ := List.mem_map.mp ha
    have := id_lt_freshId store v hv
    omega
  cases req with
  | login body => simpa [step, login_store] using hids
  | refreshToken body => simpa [step, refreshToken_store] using hids
  | getUserProfile userId => simpa [step, getUserProfile_store] using hids
  | register body =>
    rcases register_store env store body with h | ⟨_, h⟩
    · simpa [step, h] using hids
    · simp only [step, h]
      exact happend _ rfl
  | auth rnd body =>
    rcases auth_store env store rnd body with h | h
    · simpa [step, h] using hids
    · simp only [step, h]
      exact happend _ rfl
  | updateUserProfile userId body =>
    rcases updateUserProfile_store store userId body with h | ⟨user, _, _, h⟩
    · simpa [step, h] using hids
    · simp only [step, h]
      rw [replaceById_map_id]
      exact hids

/-- Every step other than an auto-registration onto an email that is already
held keeps the emails of the store pairwise different. -/
theorem step_emails_unique (env : Env) (store : Store) (req : Request)
    (hids : (store.map (fun u => u.id)).Nodup) (huniq : EmailsUnique store)
    (hauth : ∀ rnd body, req = .auth rnd body → ∀ u ∈ store, u.email ≠ tempEmail body.phone) :
    EmailsUnique (step env store req).store := by
  cases req with
  | login body => simpa [step, login_store] using huniq
  | refreshToken body => simpa [step, refreshToken_store] using huniq
  | getUserProfile userId => simpa [step, getUserProfile_store] using huniq
  | register body =>
    rcases register_store env store body with h | ⟨hnone, h⟩
    · simpa [step, h] using huniq
    · simp only [step, h]
      apply emailsUnique_append_singleton store _ huniq
      intro a ha
      have := (findOne_eq_none_iff store _).mp hnone a ha
      simpa [registered] using this
  | auth rnd body =>
    rcases auth_store env store rnd body with h | h
    · simpa [step, h] using huniq
    · simp only [step, h]
      apply emailsUnique_append_singleton store _ huniq
      intro a ha
      exact hauth rnd body rfl a ha
  | updateUserProfile userId body =>
    rcases updateUserProfile_store store userId body with h | ⟨user, hfound, hfree, h⟩
    · simpa [step, h] using huniq
    · simp only [step, h]
      have huid : user.id = userId := findById_id hfound
      have humem : user ∈ store := (findOne_some_mem hfound).1
      apply emailsUnique_replaceById _ store hids huniq
      intro v hv hne
      rw [edited_id, huid] at hne
      by_cases he : body.email.truthy = true
      · apply sameEmail_false_of_ne
        rw [edited_email]
        simp only [he, if_true]
        intro hem
        have htaken := (emailTaken_iff store userId body).mpr ⟨v, hv, hne, hem⟩
        rw [hfree he] at htaken
        cases htaken
      · rw [sameEmail_comm, sameEmail_congr_left v (by rw [edited_email]; simp [he] :
          (edited user body).email = user.email), sameEmail_comm]
        have hsym : Symmetric (fun a b : User => sameEmail a b = false) := by
          intro a b hab
          rw [sameEmail_comm]
          exact hab
        apply List.Pairwise.forall hsym huniq hv humem
        intro hvu
        apply hne
        rw [hvu, huid]

/-- C10, at a failing input: from the empty store, registering the email
`555@temp.ecoride.com` gives a store with unique emails; legacy `auth` for the
phone `555` then answers 201 and leaves two identities with that email. -/
theorem auth_breaks_email_uniqueness :
    EmailsUnique
      (step sampleEnv []
        (.register { email := .str "555@temp.ecoride.com", password := .str "pw",
                     role := .str "customer" })).store ∧
    (step sampleEnv
      (step sampleEnv []
        (.register { email := .str "555@temp.ecoride.com", password := .str "pw",
                     role := .str "customer" })).store
      (.auth "r4nd0m" { phone := .str "555", role := .str "customer" })).store
      = [ { id := 1, email := .str "555@temp.ecoride.com", password := .str "#pw",
            role := .str "customer" },
          { id := 2, email := .str "555@temp.ecoride.com", password := .str "#r4nd0m",
            role := .str "customer", phone := .str "555" } ] ∧
    ¬ EmailsUnique
      (step sampleEnv
        (step sampleEnv []
          (.register { email := .str "555@temp.ecoride.com", password := .str "pw",
                       role := .str "customer" })).store
        (.auth "r4nd0m" { phone := .str "555", role := .str "customer" })).store := by
  refine ⟨by decide, by decide, by decide⟩

end Ecoride
